import Mathlib

/-!
Verification of the Motia uptime-monitor core: the persistent status store
(src/lib/stream.ts), the token-bucket rate limiter (src/lib/rate-limiter.ts)
and the alert decision handler (the TerminalAlerter event step).

JavaScript numbers are modelled as exact rationals, timestamps in
milliseconds as integers, and the three JSON-object stores as association
lists keyed by URL string.  Stateful functions are written in explicit
state-passing style; functions that may throw return an Except value.
-/

namespace Uptime

/-- One check result as produced by the checker and consumed by the core.
The status field is a plain string because the source validates it at run
time against the set of allowed values. -/
structure StatusResult where
  url : String
  status : String
  code : Option Int
  responseTime : ℚ
  checkedAt : String
  errorMsg : Option String
deriving DecidableEq, Repr

/-- Per-site aggregate metrics, mirroring the SiteMetrics interface.
minResponseTime is initialised to Infinity in the source; we model the
Infinity starting value as none. -/
structure SiteMetrics where
  url : String
  averageResponseTime : ℚ
  uptimePercentage : ℚ
  totalChecks : Nat
  successfulChecks : Nat
  lastDownTime : Option String
  lastUpTime : Option String
  consecutiveFailures : Nat
  maxResponseTime : ℚ
  minResponseTime : Option ℚ
deriving DecidableEq, Repr

/-- The three persisted stores of stream.ts: the last-known-status map, the
metrics map and the bounded history array. -/
structure Store where
  statusStore : List (String × StatusResult)
  metricsStore : List (String × SiteMetrics)
  history : List StatusResult
deriving DecidableEq, Repr

/-- Lookup in a JavaScript-object-like association list. -/
def alookup {α : Type} : List (String × α) → String → Option α
  | [], _ => none
  | (k, v) :: rest, key => if k = key then some v else alookup rest key

/-- Key assignment in a JavaScript-object-like association list: overwrite
the existing binding in place, or append a new one. -/
def aset {α : Type} : List (String × α) → String → α → List (String × α)
  | [], key, v => [(key, v)]
  | (k, w) :: rest, key, v =>
      if k = key then (k, v) :: rest else (k, w) :: aset rest key v

/-- Fresh SiteMetrics record created when a site has no metrics entry yet
(the object literal defaulted in updateSiteMetrics). -/
def initialMetrics (url : String) : SiteMetrics :=
  { url := url
    averageResponseTime := 0
    uptimePercentage := 100
    totalChecks := 0
    successfulChecks := 0
    lastDownTime := none
    lastUpTime := none
    consecutiveFailures := 0
    maxResponseTime := 0
    minResponseTime := none }

/-- Math.min against a possibly-Infinity current minimum. -/
def minWithInf (m : Option ℚ) (x : ℚ) : ℚ :=
  match m with
  | none => x
  | some v => min v x

/-- The in-place mutation steps of updateSiteMetrics applied to the loaded
(or defaulted) entry: counter updates, streaming response-time statistics,
then the uptime percentage recomputed from the new counters. -/
def newSiteMetrics (existing : SiteMetrics) (result : StatusResult) :
    SiteMetrics :=
  let m1 : SiteMetrics :=
    if result.status = "UP" then
      { existing with
        totalChecks := existing.totalChecks + 1
        successfulChecks := existing.successfulChecks + 1
        consecutiveFailures := 0
        lastUpTime := some result.checkedAt }
    else
      { existing with
        totalChecks := existing.totalChecks + 1
        consecutiveFailures := existing.consecutiveFailures + 1
        lastDownTime := some result.checkedAt }
  let rt := result.responseTime
  let m2 : SiteMetrics :=
    { m1 with
      averageResponseTime :=
        (m1.averageResponseTime * ((m1.totalChecks : ℚ) - 1) + rt) /
          (m1.totalChecks : ℚ)
      maxResponseTime := max m1.maxResponseTime rt
      minResponseTime := some (minWithInf m1.minResponseTime rt) }
  { m2 with
    uptimePercentage :=
      (m2.successfulChecks : ℚ) / (m2.totalChecks : ℚ) * 100 }

/-- updateSiteMetrics from stream.ts: load or default the entry, apply the
mutation steps, write the entry back.  The source function also receives
the previous StatusResult but never reads it; the parameter is kept to
mirror the signature. -/
def updateSiteMetrics (metrics : List (String × SiteMetrics))
    (result : StatusResult) (_previousResult : Option StatusResult) :
    List (String × SiteMetrics) :=
  aset metrics result.url
    (newSiteMetrics
      ((alookup metrics result.url).getD (initialMetrics result.url)) result)

/-- The hard-coded history capacity of stream.ts. -/
def historyCap : Nat := 1000

/-- addToHistory with an explicit capacity: push, then keep only the last
cap entries (the slice with negative start in the source). -/
def addToHistoryCapped (cap : Nat) (history : List StatusResult)
    (result : StatusResult) : List StatusResult :=
  let h := history ++ [result]
  if cap < h.length then h.drop (h.length - cap) else h

/-- addToHistory from stream.ts: capacity fixed at 1000. -/
def addToHistory (history : List StatusResult) (result : StatusResult) :
    List StatusResult :=
  addToHistoryCapped historyCap history result

/-- The validation chain at the top of updateLastStatus; returns the thrown
message, or none when the result passes every check.  The typeof checks of
the source are type-level here; a missing or non-string field is modelled
by the empty string. -/
def validationError (result : StatusResult) : Option String :=
  if result.url = "" then
    some "Result must have a valid URL string"
  else if ¬ (result.status = "UP" ∨ result.status = "DOWN") then
    some "Result must have a valid status (UP or DOWN)"
  else if result.responseTime < 0 then
    some "Result must have a valid responseTime (non-negative number)"
  else if result.checkedAt = "" then
    some "Result must have a valid checkedAt timestamp"
  else none

/-- updateLastStatus from stream.ts: validate, then write the status store,
the metrics store and the history.  All validation happens before the first
store access, so a thrown error leaves every store untouched; the Except
error carries the thrown message. -/
def updateLastStatus (store : Store) (result : StatusResult) :
    Except String Store :=
  match validationError result with
  | some e => .error e
  | none =>
      let previousResult := alookup store.statusStore result.url
      .ok { statusStore := aset store.statusStore result.url result
            metricsStore := updateSiteMetrics store.metricsStore result previousResult
            history := addToHistory store.history result }

/-- getSnapshot from stream.ts.  The per-entry defensive copy is the
identity on immutable values. -/
def getSnapshot (store : Store) : List (String × StatusResult) :=
  store.statusStore

/-- getPreviousStatus from stream.ts: throws on an empty URL, otherwise
looks up the status store. -/
def getPreviousStatus (store : Store) (url : String) :
    Except String (Option StatusResult) :=
  if url = "" then .error "URL must be a valid string"
  else .ok (alookup store.statusStore url)

/-- getSiteHistory from stream.ts: filter by URL, keep the last limit
entries, most recent first.  A limit of zero reproduces the slice with
negative-zero start of the source, which returns the whole array. -/
def getSiteHistory (history : List StatusResult) (url : String)
    (limit : Nat) : List StatusResult :=
  let filtered := history.filter (fun r => r.url = url)
  let lastN :=
    if limit = 0 then filtered
    else filtered.drop (filtered.length - limit)
  lastN.reverse

/-- Per-site token-bucket state from rate-limiter.ts; lastRefill is a
millisecond timestamp. -/
structure TokenBucket where
  tokens : ℚ
  lastRefill : ℤ
deriving DecidableEq, Repr

/-- The rate limiter: its two construction parameters plus the per-site
bucket map.  The derived refill rate is burst / (windowSec * 1000) tokens
per millisecond. -/
structure RateLimiter where
  burst : ℚ
  windowSec : ℚ
  buckets : List (String × TokenBucket)
deriving DecidableEq, Repr

/-- Derived token replenishment rate in tokens per millisecond. -/
def RateLimiter.refillRate (rl : RateLimiter) : ℚ :=
  rl.burst / (rl.windowSec * 1000)

/-- createRateLimiter: rejects non-positive parameters, otherwise starts
with no buckets. -/
def createRateLimiter (burst windowSec : ℚ) : Except String RateLimiter :=
  if burst ≤ 0 then .error "burst must be a positive number"
  else if windowSec ≤ 0 then .error "windowSec must be a positive number"
  else .ok { burst := burst, windowSec := windowSec, buckets := [] }

/-- refillBucket: add elapsed-time * refillRate tokens, capped at burst;
a non-positive elapsed time leaves the bucket untouched. -/
def refillBucket (refillRate burst : ℚ) (bucket : TokenBucket) (now : ℤ) :
    TokenBucket :=
  let timePassed := now - bucket.lastRefill
  if 0 < timePassed then
    { tokens := min burst (bucket.tokens + (timePassed : ℚ) * refillRate)
      lastRefill := now }
  else bucket

/-- getBucket: the stored bucket for a site, or a fresh full bucket with
lastRefill = now when the site has none, exactly as in the source. -/
def storedBucket (rl : RateLimiter) (siteUrl : String) (now : ℤ) :
    TokenBucket :=
  match alookup rl.buckets siteUrl with
  | some b => b
  | none => { tokens := rl.burst, lastRefill := now }

/-- getBucket followed by refillBucket, writing the refreshed bucket back:
the shared prologue of every limiter operation. -/
def refreshBucket (rl : RateLimiter) (siteUrl : String) (now : ℤ) :
    TokenBucket × RateLimiter :=
  let b2 := refillBucket rl.refillRate rl.burst (storedBucket rl siteUrl now) now
  (b2, { rl with buckets := aset rl.buckets siteUrl b2 })

/-- isAllowed: refill, then test tokens >= 1; no change beyond the refill
bookkeeping. -/
def isAllowed (rl : RateLimiter) (siteUrl : String) (now : ℤ) :
    Bool × RateLimiter :=
  let p := refreshBucket rl siteUrl now
  (decide (1 ≤ p.1.tokens), p.2)

/-- consume: refill, then take one token when at least one is available,
otherwise deny with no mutation beyond the refill. -/
def consume (rl : RateLimiter) (siteUrl : String) (now : ℤ) :
    Bool × RateLimiter :=
  let p := refreshBucket rl siteUrl now
  if 1 ≤ p.1.tokens then
    (true,
     { p.2 with
        buckets := aset p.2.buckets siteUrl
          { p.1 with tokens := p.1.tokens - 1 } })
  else (false, p.2)

/-- getTokenCount: refill, then floor of the token count. -/
def getTokenCount (rl : RateLimiter) (siteUrl : String) (now : ℤ) :
    ℤ × RateLimiter :=
  let p := refreshBucket rl siteUrl now
  (⌊p.1.tokens⌋, p.2)

/-- getTimeUntilNextToken: refill, then 0 when a token is available, else
the ceiling of (1 - tokens) / refillRate milliseconds. -/
def getTimeUntilNextToken (rl : RateLimiter) (siteUrl : String) (now : ℤ) :
    ℤ × RateLimiter :=
  let p := refreshBucket rl siteUrl now
  if 1 ≤ p.1.tokens then (0, p.2)
  else (⌈(1 - p.1.tokens) / p.2.refillRate⌉, p.2)

/-- The notifications the alerter step can print, in the order of the four
handler outcomes: first observation, unchanged status, granted transition
alert, rate-limited (suppressed) transition. -/
inductive Notification where
  | initialCheck (url status : String) (responseTime : ℚ)
  | routineUpdate (url status : String) (responseTime : ℚ) (checkedAt : String)
  | statusChange (result : StatusResult) (previousStatus : String)
  | rateLimited (url previousStatus newStatus : String) (timeUntilNextMs : ℤ)
deriving DecidableEq, Repr

/-- Recogniser for the high-priority status-change notification. -/
def Notification.isStatusChange : Notification → Bool
  | .statusChange _ _ => true
  | _ => false

/-- Recogniser for the suppressed (rate-limited) notification. -/
def Notification.isRateLimited : Notification → Bool
  | .rateLimited _ _ _ _ => true
  | _ => false

/-- The whole mutable state the alerter step touches: the persisted stores
plus its module-level rate limiter. -/
structure SystemState where
  store : Store
  limiter : RateLimiter
deriving DecidableEq, Repr

/-- The TerminalAlerter event handler, evaluated at the instant now.
Branches in source order: a getPreviousStatus throw (empty URL) is caught
and ends the invocation silently; a site with no record is persisted and
announced without touching the limiter; an unchanged status is persisted
and logged as routine; a transition consumes a token, and when denied the
result is NOT persisted and only a suppressed message carrying
getTimeUntilNextToken is printed, while when granted the alert is shown
and the result is then persisted.  An uncaught validation throw from
updateLastStatus surfaces as the error case.  The getTokenCount calls that
appear only inside log metadata re-run the refill at the same instant,
which leaves the limiter unchanged, and are omitted. -/
def handler (sys : SystemState) (input : StatusResult) (now : ℤ) :
    Except String (SystemState × List Notification) :=
  if input.url = "" then .ok (sys, [])
  else
    match alookup sys.store.statusStore input.url with
    | none =>
        match updateLastStatus sys.store input with
        | .error e => .error e
        | .ok store2 =>
            .ok ({ sys with store := store2 },
                 [.initialCheck input.url input.status input.responseTime])
    | some previousResult =>
        if input.status = previousResult.status then
          match updateLastStatus sys.store input with
          | .error e => .error e
          | .ok store2 =>
              .ok ({ sys with store := store2 },
                   [.routineUpdate input.url input.status input.responseTime
                      input.checkedAt])
        else
          match consume sys.limiter input.url now with
          | (false, limiter1) =>
              let p := getTimeUntilNextToken limiter1 input.url now
              .ok ({ sys with limiter := p.2 },
                   [.rateLimited input.url previousResult.status input.status
                      p.1])
          | (true, limiter1) =>
              match updateLastStatus sys.store input with
              | .error e => .error e
              | .ok store2 =>
                  .ok ({ store := store2, limiter := limiter1 },
                       [.statusChange input previousResult.status])

/-- Run the handler over a sequence of check results, all evaluated at the
same instant, collecting every notification in order. -/
def runChecks (sys : SystemState) (inputs : List StatusResult) (now : ℤ) :
    Except String (SystemState × List Notification) :=
  match inputs with
  | [] => .ok (sys, [])
  | i :: rest =>
      match handler sys i now with
      | .error e => .error e
      | .ok (sys2, ns) =>
          match runChecks sys2 rest now with
          | .error e => .error e
          | .ok (sys3, ns2) => .ok (sys3, ns ++ ns2)

/-- Submit a sequence of results directly through the persistence-layer
entry point updateLastStatus, stopping at the first validation throw. -/
def submitAll (store : Store) (results : List StatusResult) :
    Except String Store :=
  match results with
  | [] => .ok store
  | r :: rest =>
      match updateLastStatus store r with
      | .error e => .error e
      | .ok store2 => submitAll store2 rest

/-- The last element of a sequence of results that is addressed to the
given URL, if any: the reference value for the round-trip property. -/
def lastFor (u : String) : List StatusResult → Option StatusResult
  | [] => none
  | r :: rest =>
      match lastFor u rest with
      | some x => some x
      | none => if r.url = u then some r else none

/-- Total checks of an optional metrics entry; a missing entry counts 0,
matching the defaulted object literal. -/
def metTotal (o : Option SiteMetrics) : Nat :=
  match o with
  | none => 0
  | some m => m.totalChecks

/-- Successful checks of an optional metrics entry. -/
def metSucc (o : Option SiteMetrics) : Nat :=
  match o with
  | none => 0
  | some m => m.successfulChecks

/-- Average response time of an optional metrics entry. -/
def metAvg (o : Option SiteMetrics) : ℚ :=
  match o with
  | none => 0
  | some m => m.averageResponseTime

/-- Sum of the response times of a sequence of results. -/
def rtSum (l : List StatusResult) : ℚ :=
  (l.map (fun r => r.responseTime)).sum

/-- Fold a sequence of results through updateSiteMetrics, starting from the
given metrics store. -/
def foldMetrics (ms : List (String × SiteMetrics))
    (l : List StatusResult) : List (String × SiteMetrics) :=
  l.foldl (fun acc r => updateSiteMetrics acc r none) ms

theorem alookup_aset_self {α : Type} (l : List (String × α)) (k : String)
    (v : α) : alookup (aset l k v) k = some v := by
  induction l with
  | nil => simp [aset, alookup]
  | cons hd tl ih =>
      obtain ⟨k2, w⟩ := hd
      by_cases h : k2 = k
      · simp [aset, h, alookup]
      · simp [aset, h, alookup, ih]

theorem alookup_aset_ne {α : Type} (l : List (String × α)) (k k2 : String)
    (v : α) (h : k2 ≠ k) : alookup (aset l k v) k2 = alookup l k2 := by
  have hk : k ≠ k2 := fun hh => h hh.symm
  induction l with
  | nil => simp [aset, alookup, hk]
  | cons hd tl ih =>
      obtain ⟨k3, w⟩ := hd
      by_cases h3 : k3 = k
      · subst h3
        simp [aset, alookup, hk]
      · simp [aset, h3, alookup, ih]

theorem validationError_none_url (r : StatusResult)
    (h : validationError r = none) : r.url ≠ "" := by
  intro hu
  simp [validationError, hu] at h

theorem updateLastStatus_ok (store : Store) (r : StatusResult)
    (h : validationError r = none) :
    updateLastStatus store r =
      .ok { statusStore := aset store.statusStore r.url r
            metricsStore :=
              updateSiteMetrics store.metricsStore r
                (alookup store.statusStore r.url)
            history := addToHistory store.history r } := by
  simp [updateLastStatus, h]

theorem newSiteMetrics_totalChecks (e : SiteMetrics) (r : StatusResult) :
    (newSiteMetrics e r).totalChecks = e.totalChecks + 1 := by
  by_cases hup : r.status = "UP" <;> simp [newSiteMetrics, hup]

theorem newSiteMetrics_successfulChecks (e : SiteMetrics) (r : StatusResult) :
    (newSiteMetrics e r).successfulChecks =
      e.successfulChecks + (if r.status = "UP" then 1 else 0) := by
  by_cases hup : r.status = "UP" <;> simp [newSiteMetrics, hup]

theorem newSiteMetrics_averageResponseTime (e : SiteMetrics)
    (r : StatusResult) :
    (newSiteMetrics e r).averageResponseTime =
      (e.averageResponseTime * (e.totalChecks : ℚ) + r.responseTime) /
        ((e.totalChecks : ℚ) + 1) := by
  by_cases hup : r.status = "UP" <;>
    · simp only [newSiteMetrics, hup, if_true, if_false]
      push_cast
      ring_nf

theorem newSiteMetrics_uptimePercentage (e : SiteMetrics)
    (r : StatusResult) :
    (newSiteMetrics e r).uptimePercentage =
      ((newSiteMetrics e r).successfulChecks : ℚ) /
        ((newSiteMetrics e r).totalChecks : ℚ) * 100 := by
  by_cases hup : r.status = "UP" <;> simp [newSiteMetrics, hup]

theorem updateSiteMetrics_lookup_self (ms : List (String × SiteMetrics))
    (r : StatusResult) (po : Option StatusResult) :
    alookup (updateSiteMetrics ms r po) r.url =
      some (newSiteMetrics
        ((alookup ms r.url).getD (initialMetrics r.url)) r) := by
  unfold updateSiteMetrics
  exact alookup_aset_self ..

theorem updateSiteMetrics_lookup_ne (ms : List (String × SiteMetrics))
    (r : StatusResult) (po : Option StatusResult) (u : String)
    (h : u ≠ r.url) :
    alookup (updateSiteMetrics ms r po) u = alookup ms u := by
  unfold updateSiteMetrics
  exact alookup_aset_ne _ _ _ _ h

theorem newSiteMetrics_avg_mul (e : SiteMetrics) (r : StatusResult) :
    (newSiteMetrics e r).averageResponseTime * ((e.totalChecks : ℚ) + 1) =
      e.averageResponseTime * (e.totalChecks : ℚ) + r.responseTime := by
  rw [newSiteMetrics_averageResponseTime, div_mul_cancel₀]
  exact Nat.cast_add_one_ne_zero e.totalChecks

/-- One updateSiteMetrics call, seen through the entry at the updated URL:
the total count gains one, the success count gains one exactly on UP, and
the running mean times the new total gains one response-time sample. -/
theorem updateSiteMetrics_self_stats (ms : List (String × SiteMetrics))
    (r : StatusResult) (po : Option StatusResult) :
    metTotal (alookup (updateSiteMetrics ms r po) r.url) =
      metTotal (alookup ms r.url) + 1 ∧
    metSucc (alookup (updateSiteMetrics ms r po) r.url) =
      metSucc (alookup ms r.url) + (if r.status = "UP" then 1 else 0) ∧
    metAvg (alookup (updateSiteMetrics ms r po) r.url) *
        (metTotal (alookup (updateSiteMetrics ms r po) r.url) : ℚ) =
      metAvg (alookup ms r.url) * (metTotal (alookup ms r.url) : ℚ) +
        r.responseTime := by
  rw [updateSiteMetrics_lookup_self]
  cases h : alookup ms r.url with
  | none =>
      refine ⟨?_, ?_, ?_⟩
      · simp [metTotal, newSiteMetrics_totalChecks, initialMetrics]
      · simp [metSucc, newSiteMetrics_successfulChecks, initialMetrics]
      · have hm := newSiteMetrics_avg_mul (initialMetrics r.url) r
        simp only [metAvg, metTotal, newSiteMetrics_totalChecks,
          Option.getD_none]
        simp only [initialMetrics] at hm ⊢
        push_cast at hm ⊢
        linarith
  | some m =>
      refine ⟨?_, ?_, ?_⟩
      · simp [metTotal, newSiteMetrics_totalChecks]
      · simp [metSucc, newSiteMetrics_successfulChecks]
      · have hm := newSiteMetrics_avg_mul m r
        simp only [metAvg, metTotal, newSiteMetrics_totalChecks,
          Option.getD_some]
        push_cast
        exact hm

/-- Folding a sequence of results for one site through updateSiteMetrics:
the total check count grows by the length, the success count by the number
of UP results, and mean times total by the response-time sum. -/
theorem foldMetrics_stats (u : String) (l : List StatusResult) :
    ∀ ms : List (String × SiteMetrics), (∀ r ∈ l, r.url = u) →
      metTotal (alookup (foldMetrics ms l) u) =
        metTotal (alookup ms u) + l.length ∧
      metSucc (alookup (foldMetrics ms l) u) =
        metSucc (alookup ms u) + l.countP (fun r => r.status == "UP") ∧
      metAvg (alookup (foldMetrics ms l) u) *
          (metTotal (alookup (foldMetrics ms l) u) : ℚ) =
        metAvg (alookup ms u) * (metTotal (alookup ms u) : ℚ) + rtSum l := by
  induction l with
  | nil =>
      intro ms _
      simp [foldMetrics, rtSum]
  | cons r rest ih =>
      intro ms h
      have hu : r.url = u := h r (by simp)
      have hrest : ∀ x ∈ rest, x.url = u := fun x hx => h x (by simp [hx])
      have hfold : foldMetrics ms (r :: rest) =
          foldMetrics (updateSiteMetrics ms r none) rest := rfl
      obtain ⟨ih1, ih2, ih3⟩ := ih (updateSiteMetrics ms r none) hrest
      have hstep := updateSiteMetrics_self_stats ms r none
      rw [hu] at hstep
      obtain ⟨hs1, hs2, hs3⟩ := hstep
      refine ⟨?_, ?_, ?_⟩
      · rw [hfold, ih1, hs1, List.length_cons]
        ring
      · rw [hfold, ih2, hs2, List.countP_cons]
        have : (r.status == "UP") = decide (r.status = "UP") := by
          by_cases hx : r.status = "UP" <;> simp [hx]
        rw [this]
        by_cases hx : r.status = "UP"
        · simp [hx]
          try ring
        · simp [hx]
          try ring
      · rw [hfold, ih3, hs3]
        have : rtSum (r :: rest) = r.responseTime + rtSum rest := by
          simp [rtSum]
        rw [this]
        ring

/-- The uptime recomputation invariant survives any fold through
updateSiteMetrics: every entry present at the given URL afterwards
satisfies uptimePercentage = successfulChecks / totalChecks * 100,
provided the entry satisfied it before (vacuously true when absent). -/
theorem foldMetrics_uptime (u : String) (l : List StatusResult) :
    ∀ ms : List (String × SiteMetrics),
      (∀ m, alookup ms u = some m →
        m.uptimePercentage =
          (m.successfulChecks : ℚ) / (m.totalChecks : ℚ) * 100) →
      ∀ m, alookup (foldMetrics ms l) u = some m →
        m.uptimePercentage =
          (m.successfulChecks : ℚ) / (m.totalChecks : ℚ) * 100 := by
  induction l with
  | nil =>
      intro ms hinv m hm
      exact hinv m hm
  | cons r rest ih =>
      intro ms hinv
      have hfold : foldMetrics ms (r :: rest) =
          foldMetrics (updateSiteMetrics ms r none) rest := rfl
      rw [hfold]
      refine ih (updateSiteMetrics ms r none) ?_
      intro m hm
      by_cases hu : u = r.url
      · subst hu
        rw [updateSiteMetrics_lookup_self] at hm
        cases hm
        exact newSiteMetrics_uptimePercentage ..
      · rw [updateSiteMetrics_lookup_ne _ _ _ _ hu] at hm
        exact hinv m hm

/-! ## Claim C5: uptime percentage invariant -/

/-- C5: after every metrics update the written entry satisfies
uptimePercentage = successfulChecks / totalChecks * 100, the initial entry
carries the 100-when-zero convention, and any ten results for one site of
which exactly seven are UP leave the uptime percentage at exactly 70. -/
theorem C5_uptime_invariant_seventy (u : String) (l : List StatusResult)
    (hall : ∀ r ∈ l, r.url = u) (hlen : l.length = 10)
    (hups : l.countP (fun r => r.status == "UP") = 7) :
    (∀ ms r po m, alookup (updateSiteMetrics ms r po) r.url = some m →
      m.uptimePercentage =
        (m.successfulChecks : ℚ) / (m.totalChecks : ℚ) * 100) ∧
    (initialMetrics u).uptimePercentage = 100 ∧
    (initialMetrics u).totalChecks = 0 ∧
    ∃ m, alookup (foldMetrics [] l) u = some m ∧
      m.totalChecks = 10 ∧ m.successfulChecks = 7 ∧
      m.uptimePercentage = 70 := by
  refine ⟨?_, rfl, rfl, ?_⟩
  · intro ms r po m hm
    rw [updateSiteMetrics_lookup_self] at hm
    cases hm
    exact newSiteMetrics_uptimePercentage ..
  · obtain ⟨h1, h2, _⟩ := foldMetrics_stats u l [] hall
    have hl0 : alookup ([] : List (String × SiteMetrics)) u = none := rfl
    rw [hl0] at h1 h2
    simp only [metTotal, metSucc, Nat.zero_add] at h1 h2
    cases hfin : alookup (foldMetrics [] l) u with
    | none =>
        rw [hfin] at h1
        simp [metTotal, hlen] at h1
    | some m =>
        rw [hfin] at h1 h2
        simp only [metTotal, metSucc] at h1 h2
        have ht : m.totalChecks = 10 := by rw [h1, hlen]
        have hs : m.successfulChecks = 7 := by rw [h2, hups]
        have hup := foldMetrics_uptime u l []
          (by intro m hm; simp [alookup] at hm) m hfin
        refine ⟨m, rfl, ht, hs, ?_⟩
        rw [hup, ht, hs]
        norm_num

/-- Helper for building witness results. -/
def mkRes (u s : String) (rt : ℚ) (t : String) : StatusResult :=
  { url := u, status := s, code := none, responseTime := rt,
    checkedAt := t, errorMsg := none }

/-- Witness site of the C5 scenario. -/
def w5Url : String := "https://c.example"

/-- Ten results, seven UP and three DOWN, in a mixed order. -/
def w5List : List StatusResult :=
  [mkRes w5Url "UP" 10 "t1", mkRes w5Url "DOWN" 20 "t2",
   mkRes w5Url "UP" 30 "t3", mkRes w5Url "UP" 40 "t4",
   mkRes w5Url "DOWN" 50 "t5", mkRes w5Url "UP" 60 "t6",
   mkRes w5Url "UP" 70 "t7", mkRes w5Url "DOWN" 80 "t8",
   mkRes w5Url "UP" 90 "t9", mkRes w5Url "UP" 100 "t10"]

theorem C5_witness :
    (∀ r ∈ w5List, r.url = w5Url) ∧ w5List.length = 10 ∧
    w5List.countP (fun r => r.status == "UP") = 7 ∧
    ((∀ ms r po m, alookup (updateSiteMetrics ms r po) r.url = some m →
        m.uptimePercentage =
          (m.successfulChecks : ℚ) / (m.totalChecks : ℚ) * 100) ∧
      (initialMetrics w5Url).uptimePercentage = 100 ∧
      (initialMetrics w5Url).totalChecks = 0 ∧
      ∃ m, alookup (foldMetrics [] w5List) w5Url = some m ∧
        m.totalChecks = 10 ∧ m.successfulChecks = 7 ∧
        m.uptimePercentage = 70) :=
  ⟨by decide, by decide, by decide,
   C5_uptime_invariant_seventy w5Url w5List (by decide) (by decide)
     (by decide)⟩

/-! ## Claim C6: the streaming mean is the arithmetic mean -/

/-- C6: for any nonempty sequence of results for one site, folding them
through updateSiteMetrics leaves averageResponseTime equal, in exact
arithmetic, to the sum of the recorded response times divided by their
number. -/
theorem C6_streaming_mean_is_mean (u : String) (l : List StatusResult)
    (hne : l ≠ []) (hall : ∀ r ∈ l, r.url = u) :
    ∃ m, alookup (foldMetrics [] l) u = some m ∧
      m.averageResponseTime = rtSum l / (l.length : ℚ) := by
  obtain ⟨h1, _, h3⟩ := foldMetrics_stats u l [] hall
  have hl0 : alookup ([] : List (String × SiteMetrics)) u = none := rfl
  rw [hl0] at h1 h3
  simp only [metTotal, metAvg, Nat.zero_add, Nat.cast_zero, mul_zero,
    zero_add, zero_mul] at h1 h3
  have hlpos : l.length ≠ 0 := by
    intro h0
    exact hne (List.length_eq_zero.mp h0)
  cases hfin : alookup (foldMetrics [] l) u with
  | none =>
      rw [hfin] at h1
      simp only [metTotal] at h1
      exact absurd h1.symm hlpos
  | some m =>
      rw [hfin] at h1 h3
      simp only [metTotal, metAvg] at h1 h3
      have hmt : (m.totalChecks : ℚ) ≠ 0 := by
        rw [h1]
        exact_mod_cast hlpos
      refine ⟨m, rfl, ?_⟩
      rw [← h1, eq_div_iff hmt]
      exact h3

/-- Witness site of the C6 scenario. -/
def w6Url : String := "https://d.example"

/-- Three results whose mean response time is 20. -/
def w6List : List StatusResult :=
  [mkRes w6Url "UP" 10 "t1", mkRes w6Url "DOWN" 35 "t2",
   mkRes w6Url "UP" 15 "t3"]

theorem C6_witness :
    w6List ≠ [] ∧ (∀ r ∈ w6List, r.url = w6Url) ∧
    ∃ m, alookup (foldMetrics [] w6List) w6Url = some m ∧
      m.averageResponseTime = rtSum w6List / (w6List.length : ℚ) :=
  ⟨by decide, by decide,
   C6_streaming_mean_is_mean w6Url w6List (by decide) (by decide)⟩

/-! ## Claim C8: token bucket timing -/

/-- Site used in the C8 scenario. -/
def c8Url : String := "https://example.com"

/-- The limiter of the C8 scenario, as built by createRateLimiter 3 300. -/
def c8Limiter : RateLimiter := { burst := 3, windowSec := 300, buckets := [] }

/-- State of the C8 limiter after one, two and three instant consumes. -/
def c8After1 : RateLimiter := (consume c8Limiter c8Url 0).2

def c8After2 : RateLimiter := (consume c8After1 c8Url 0).2

def c8After3 : RateLimiter := (consume c8After2 c8Url 0).2

/-- C8: with burst = 3 and windowSec = 300, a fresh bucket grants three
instant consumes, and getTimeUntilNextToken then reports exactly 100000
milliseconds, the time one token needs at refillRate = 3 / 300000 tokens
per millisecond. -/
theorem C8_token_bucket_timing :
    createRateLimiter 3 300 = .ok c8Limiter ∧
    (consume c8Limiter c8Url 0).1 = true ∧
    (consume c8After1 c8Url 0).1 = true ∧
    (consume c8After2 c8Url 0).1 = true ∧
    (getTimeUntilNextToken c8After3 c8Url 0).1 = 100000 := by
  refine ⟨by norm_num [createRateLimiter, c8Limiter], ?_, ?_, ?_, ?_⟩ <;>
    norm_num [c8Limiter, c8After1, c8After2, c8After3, consume,
      getTimeUntilNextToken, refreshBucket, storedBucket, refillBucket,
      RateLimiter.refillRate, alookup, aset]

/-! ## Claim C1: a rate-limited transition is suppressed, not persisted -/

/-- C1: when a stored record exists, the incoming status differs and the
limiter denies consume, the handler emits exactly one suppressed
notification carrying getTimeUntilNextToken, and the whole persisted
store (status record, history, metrics) is left untouched, so the status
record still holds the stale previous status. -/
theorem C1_suppressed_transition_not_persisted
    (sys : SystemState) (r : StatusResult) (now : ℤ) (prev : StatusResult)
    (hurl : r.url ≠ "")
    (hprev : alookup sys.store.statusStore r.url = some prev)
    (hdiff : r.status ≠ prev.status)
    (hdenied : (consume sys.limiter r.url now).1 = false) :
    ∃ sys2 t,
      handler sys r now =
        .ok (sys2,
          [Notification.rateLimited r.url prev.status r.status t]) ∧
      t = (getTimeUntilNextToken (consume sys.limiter r.url now).2
            r.url now).1 ∧
      sys2.store = sys.store ∧
      alookup sys2.store.statusStore r.url = some prev := by
  rcases hc : consume sys.limiter r.url now with ⟨b, rl2⟩
  rw [hc] at hdenied
  simp only at hdenied
  subst hdenied
  refine ⟨{ sys with limiter := (getTimeUntilNextToken rl2 r.url now).2 },
          (getTimeUntilNextToken rl2 r.url now).1, ?_, rfl, rfl,
          hprev⟩
  simp only [handler, if_neg hurl, hprev, if_neg hdiff, hc]

/-- Site of the C1 witness scenario. -/
def w1Url : String := "https://a.example"

/-- Stored previous record of the C1 witness: the site was UP. -/
def w1Prev : StatusResult :=
  { url := w1Url, status := "UP", code := some 200, responseTime := 10,
    checkedAt := "2024-01-01T00:00:00Z", errorMsg := none }

/-- Incoming transition of the C1 witness: the site is now DOWN. -/
def w1R : StatusResult :=
  { url := w1Url, status := "DOWN", code := none, responseTime := 0,
    checkedAt := "2024-01-01T00:01:00Z", errorMsg := some "timeout" }

/-- C1 witness state: one stored record and an empty bucket for the site. -/
def w1Sys : SystemState :=
  { store :=
      { statusStore := [(w1Url, w1Prev)]
        metricsStore := []
        history := [w1Prev] }
    limiter :=
      { burst := 2, windowSec := 300
        buckets := [(w1Url, { tokens := 0, lastRefill := 0 })] } }

theorem C1_witness :
    w1R.url ≠ "" ∧
    alookup w1Sys.store.statusStore w1R.url = some w1Prev ∧
    w1R.status ≠ w1Prev.status ∧
    (consume w1Sys.limiter w1R.url 0).1 = false ∧
    ∃ sys2 t,
      handler w1Sys w1R 0 =
        .ok (sys2,
          [Notification.rateLimited w1R.url w1Prev.status w1R.status t]) ∧
      t = (getTimeUntilNextToken (consume w1Sys.limiter w1R.url 0).2
            w1R.url 0).1 ∧
      sys2.store = w1Sys.store ∧
      alookup sys2.store.statusStore w1R.url = some w1Prev :=
  ⟨by decide, by decide, by decide, by decide,
   C1_suppressed_transition_not_persisted w1Sys w1R 0 w1Prev (by decide)
     (by decide) (by decide) (by decide)⟩

/-! ## Claim C4: first observation persists, no rate-limit check -/

/-- C4: a result for a site with no stored record is always persisted (the
status record is written, the history appended, the metrics updated), an
initial-observation notification is emitted, and the rate limiter is
neither consulted nor consumed (its state is untouched).  The result is
assumed well-formed, as a CheckResult of the data model is. -/
theorem C4_first_observation_persists
    (sys : SystemState) (r : StatusResult) (now : ℤ)
    (hvalid : validationError r = none)
    (hnone : alookup sys.store.statusStore r.url = none) :
    ∃ store2,
      handler sys r now =
        .ok ({ store := store2, limiter := sys.limiter },
          [Notification.initialCheck r.url r.status r.responseTime]) ∧
      alookup store2.statusStore r.url = some r ∧
      store2.history = addToHistory sys.store.history r ∧
      store2.metricsStore =
        updateSiteMetrics sys.store.metricsStore r none := by
  have hurl := validationError_none_url r hvalid
  have hok := updateLastStatus_ok sys.store r hvalid
  refine ⟨{ statusStore := aset sys.store.statusStore r.url r
            metricsStore :=
              updateSiteMetrics sys.store.metricsStore r
                (alookup sys.store.statusStore r.url)
            history := addToHistory sys.store.history r }, ?_, ?_, rfl, ?_⟩
  · simp only [handler, if_neg hurl, hnone, hok]
  · exact alookup_aset_self ..
  · rw [hnone]

/-- C4 witness state: empty stores and a fresh limiter. -/
def w4Sys : SystemState :=
  { store := { statusStore := [], metricsStore := [], history := [] }
    limiter := { burst := 3, windowSec := 300, buckets := [] } }

/-- C4 witness input: a valid first observation. -/
def w4R : StatusResult :=
  { url := "https://b.example", status := "UP", code := some 200,
    responseTime := 42, checkedAt := "2024-01-01T00:00:00Z",
    errorMsg := none }

theorem C4_witness :
    validationError w4R = none ∧
    alookup w4Sys.store.statusStore w4R.url = none ∧
    ∃ store2,
      handler w4Sys w4R 0 =
        .ok ({ store := store2, limiter := w4Sys.limiter },
          [Notification.initialCheck w4R.url w4R.status w4R.responseTime]) ∧
      alookup store2.statusStore w4R.url = some w4R ∧
      store2.history = addToHistory w4Sys.store.history w4R ∧
      store2.metricsStore =
        updateSiteMetrics w4Sys.store.metricsStore w4R none :=
  ⟨by decide, by decide,
   C4_first_observation_persists w4Sys w4R 0 (by decide) (by decide)⟩

/-! ## Claim C7: the history cap is global -/

/-- Fold a sequence of results through the capped history append. -/
def foldHistory (cap : Nat) (h : List StatusResult)
    (l : List StatusResult) : List StatusResult :=
  l.foldl (addToHistoryCapped cap) h

/-- Sites of the C7 scenario. -/
def w7UrlA : String := "https://a7.example"

def w7UrlB : String := "https://b7.example"

/-- The five submissions of the C7 scenario: two for site A, then three
for site B. -/
def w7A1 : StatusResult := mkRes w7UrlA "UP" 1 "t1"

def w7A2 : StatusResult := mkRes w7UrlA "UP" 2 "t2"

def w7B1 : StatusResult := mkRes w7UrlB "UP" 3 "t3"

def w7B2 : StatusResult := mkRes w7UrlB "UP" 4 "t4"

def w7B3 : StatusResult := mkRes w7UrlB "UP" 5 "t5"

/-- History produced by the C7 scenario with the cap set to 3. -/
def w7Hist : List StatusResult :=
  foldHistory 3 [] [w7A1, w7A2, w7B1, w7B2, w7B3]

set_option maxRecDepth 4000 in
/-- C7: an append never pushes the history beyond the 1000-entry cap; at
the cap the oldest entry is evicted regardless of its site; with cap 3
the sequence A,A,B,B,B leaves only the three B entries, so the site-A
history query returns the empty sequence: the cap is global, not
per-site. -/
theorem C7_global_history_cap :
    (∀ h r, h.length ≤ 1000 → (addToHistory h r).length ≤ 1000) ∧
    (∀ (h : List StatusResult) r, h.length = 1000 →
      addToHistory h r = h.drop 1 ++ [r]) ∧
    w7Hist = [w7B1, w7B2, w7B3] ∧
    getSiteHistory w7Hist w7UrlA 10 = [] := by
  refine ⟨?_, ?_, by decide, by decide⟩
  · intro h r hlen
    simp only [addToHistory, addToHistoryCapped, historyCap]
    by_cases hc : 1000 < (h ++ [r]).length
    · simp only [if_pos hc, List.length_drop]
      omega
    · simp only [if_neg hc]
      simp only [List.length_append, List.length_cons, List.length_nil] at hc ⊢
      omega
  · intro h r hlen
    cases h with
    | nil => simp at hlen
    | cons a t =>
        have hlt : t.length = 999 := by simpa using hlen
        simp [addToHistory, addToHistoryCapped, historyCap, hlt]

theorem C7_witness :
    (List.replicate 1000 w7A1).length = 1000 ∧
    (addToHistory [] w7B1).length ≤ 1000 ∧
    addToHistory (List.replicate 1000 w7A1) w7B1 =
      (List.replicate 1000 w7A1).drop 1 ++ [w7B1] :=
  ⟨List.length_replicate 1000 w7A1,
   C7_global_history_cap.1 [] w7B1 (by simp),
   C7_global_history_cap.2.1 (List.replicate 1000 w7A1) w7B1
     (List.length_replicate 1000 w7A1)⟩

/-! ## Claim C9: validation rejects before any mutation -/

/-- The C9 counterexample input: every typed field is present, the status
is allowed, the response time is non-negative, and checkedAt is a
non-empty string that is not parseable as a date.  In JavaScript,
new Date on this string yields Invalid Date without throwing, and
updateLastStatus only checks that checkedAt is a truthy string. -/
def c9Bad : StatusResult :=
  { url := "https://e.example", status := "UP", code := some 200,
    responseTime := 5, checkedAt := "not-a-date", errorMsg := none }

/-- The empty store. -/
def emptyStore : Store :=
  { statusStore := [], metricsStore := [], history := [] }

/-- C9 counterexample: a result whose checkedAt is not a parseable
timestamp is nevertheless accepted — updateLastStatus returns ok, writes
the status record and appends to the history, refuting the claim that
such a submission raises a validation error and leaves the stores
unchanged. -/
theorem C9_counterexample :
    (updateLastStatus emptyStore c9Bad).toOption.map
        (fun s => alookup s.statusStore c9Bad.url) = some (some c9Bad) ∧
    (updateLastStatus emptyStore c9Bad).toOption.map
        (fun s => s.history) = some [c9Bad] := by
  have hv : validationError c9Bad = none := by decide
  have hok := updateLastStatus_ok emptyStore c9Bad hv
  rw [hok]
  constructor
  · simp [Except.toOption, emptyStore, aset, alookup]
  · simp [Except.toOption, emptyStore, addToHistory, addToHistoryCapped,
      historyCap]

/-- C9 amended: updateLastStatus throws exactly when one of the four
implemented checks fails — empty URL, status outside UP and DOWN,
negative response time, or empty checkedAt; parseability of checkedAt is
not checked.  All checks precede the first store access, so a throw
leaves every store untouched (the error branch returns no new store). -/
theorem C9_validation_rejects_before_mutation (s : Store)
    (r : StatusResult) :
    (∃ e, updateLastStatus s r = .error e) ↔
      (r.url = "" ∨ (r.status ≠ "UP" ∧ r.status ≠ "DOWN") ∨
        r.responseTime < 0 ∨ r.checkedAt = "") := by
  have hiff : (∃ e, updateLastStatus s r = .error e) ↔
      validationError r ≠ none := by
    unfold updateLastStatus
    cases hv : validationError r with
    | none => simp
    | some e => simp
  rw [hiff]
  unfold validationError
  split_ifs with h1 h2 h3 h4 <;>
    · simp_all [not_or]
      try tauto

/-- A result failing the responseTime check, used by the C9 witness. -/
def w9Invalid : StatusResult :=
  { url := "https://f.example", status := "UP", code := none,
    responseTime := -1, checkedAt := "2024-01-01T00:00:00Z",
    errorMsg := none }

theorem C9_witness :
    ∃ e, updateLastStatus emptyStore w9Invalid = .error e :=
  (C9_validation_rejects_before_mutation emptyStore w9Invalid).mpr
    (by norm_num [w9Invalid])

/-! ## Claim C10: algebra of the limiter operations -/

/-- Every stored bucket keeps its token count inside the closed interval
from 0 to burst. -/
def bucketsInRange (rl : RateLimiter) : Prop :=
  ∀ k b, alookup rl.buckets k = some b →
    0 ≤ b.tokens ∧ b.tokens ≤ rl.burst

theorem refillRate_pos (rl : RateLimiter) (hb : 0 < rl.burst)
    (hw : 0 < rl.windowSec) : 0 < rl.refillRate := by
  unfold RateLimiter.refillRate
  exact div_pos hb (by positivity)

theorem refillBucket_range (rate burst : ℚ) (b : TokenBucket) (now : ℤ)
    (hr : 0 ≤ rate) (h0 : 0 ≤ b.tokens) (h1 : b.tokens ≤ burst) :
    0 ≤ (refillBucket rate burst b now).tokens ∧
      (refillBucket rate burst b now).tokens ≤ burst := by
  unfold refillBucket
  by_cases ht : 0 < now - b.lastRefill
  · simp only [if_pos ht]
    constructor
    · refine le_min (h0.trans h1) (add_nonneg h0 (mul_nonneg ?_ hr))
      exact_mod_cast ht.le
    · exact min_le_left _ _
  · simp only [if_neg ht]
    exact ⟨h0, h1⟩

theorem storedBucket_range (rl : RateLimiter) (key : String) (now : ℤ)
    (hb : 0 < rl.burst) (hinv : bucketsInRange rl) :
    0 ≤ (storedBucket rl key now).tokens ∧
      (storedBucket rl key now).tokens ≤ rl.burst := by
  unfold storedBucket
  cases h : alookup rl.buckets key with
  | none => exact ⟨hb.le, le_refl _⟩
  | some b => exact hinv key b h

theorem refreshBucket_range (rl : RateLimiter) (key : String) (now : ℤ)
    (hb : 0 < rl.burst) (hw : 0 < rl.windowSec) (hinv : bucketsInRange rl) :
    0 ≤ (refreshBucket rl key now).1.tokens ∧
      (refreshBucket rl key now).1.tokens ≤ rl.burst := by
  obtain ⟨h0, h1⟩ := storedBucket_range rl key now hb hinv
  exact refillBucket_range _ _ _ _ (refillRate_pos rl hb hw).le h0 h1

theorem bucketsInRange_update (rl : RateLimiter) (key : String)
    (v : TokenBucket) (hv : 0 ≤ v.tokens ∧ v.tokens ≤ rl.burst)
    (hinv : bucketsInRange rl) :
    bucketsInRange { rl with buckets := aset rl.buckets key v } := by
  intro k b hb
  by_cases hk : k = key
  · subst hk
    rw [alookup_aset_self] at hb
    cases hb
    exact hv
  · rw [alookup_aset_ne _ _ _ _ hk] at hb
    exact hinv k b hb

theorem refreshBucket_snd_range (rl : RateLimiter) (key : String)
    (now : ℤ) (hb : 0 < rl.burst) (hw : 0 < rl.windowSec)
    (hinv : bucketsInRange rl) :
    bucketsInRange (refreshBucket rl key now).2 :=
  bucketsInRange_update rl key _
    (refreshBucket_range rl key now hb hw hinv) hinv

/-- C10: at a single instant, consume succeeds exactly when isAllowed
holds, getTimeUntilNextToken is zero exactly when isAllowed holds, a
denied consume changes nothing beyond the refill bookkeeping (its state
equals the isAllowed state), and each of the four operations keeps every
bucket within 0 and burst. -/
theorem C10_limiter_operation_algebra (rl : RateLimiter) (key : String)
    (now : ℤ) (hb : 0 < rl.burst) (hw : 0 < rl.windowSec)
    (hinv : bucketsInRange rl) :
    ((consume rl key now).1 = (isAllowed rl key now).1) ∧
    ((getTimeUntilNextToken rl key now).1 = 0 ↔
      (isAllowed rl key now).1 = true) ∧
    ((consume rl key now).1 = false →
      (consume rl key now).2 = (isAllowed rl key now).2) ∧
    bucketsInRange (consume rl key now).2 ∧
    bucketsInRange (isAllowed rl key now).2 ∧
    bucketsInRange (getTokenCount rl key now).2 ∧
    bucketsInRange (getTimeUntilNextToken rl key now).2 := by
  have hrange := refreshBucket_range rl key now hb hw hinv
  have hsnd := refreshBucket_snd_range rl key now hb hw hinv
  by_cases hc : 1 ≤ (refreshBucket rl key now).1.tokens
  · refine ⟨?_, ?_, ?_, ?_, ?_, ?_, ?_⟩
    · simp [consume, isAllowed, hc]
    · simp [getTimeUntilNextToken, isAllowed, hc]
    · intro hfalse
      simp [consume, hc] at hfalse
    · simp only [consume, if_pos hc]
      refine bucketsInRange_update _ _ _ ⟨?_, ?_⟩ hsnd
      · simp only []
        linarith [hc]
      · simp only []
        have : (refreshBucket rl key now).2.burst = rl.burst := rfl
        rw [this]
        linarith [hrange.2]
    · simp only [isAllowed]
      exact hsnd
    · simp only [getTokenCount]
      exact hsnd
    · simp only [getTimeUntilNextToken, if_pos hc]
      exact hsnd
  · refine ⟨?_, ?_, ?_, ?_, ?_, ?_, ?_⟩
    · simp [consume, isAllowed, hc]
    · simp only [getTimeUntilNextToken, if_neg hc]
      simp [isAllowed, hc]
      intro _
      apply div_pos
      · linarith [not_le.mp hc]
      · exact refillRate_pos rl hb hw
    · intro _
      simp [consume, hc, isAllowed]
    · simp only [consume, if_neg hc]
      exact hsnd
    · simp only [isAllowed]
      exact hsnd
    · simp only [getTokenCount]
      exact hsnd
    · simp only [getTimeUntilNextToken, if_neg hc]
      exact hsnd

/-- C10 witness limiter: valid parameters, no buckets yet. -/
def w10Limiter : RateLimiter :=
  { burst := 3, windowSec := 300, buckets := [] }

theorem C10_witness :
    (0:ℚ) < w10Limiter.burst ∧ (0:ℚ) < w10Limiter.windowSec ∧
    bucketsInRange w10Limiter ∧
    (((consume w10Limiter w1Url 0).1 = (isAllowed w10Limiter w1Url 0).1) ∧
      ((getTimeUntilNextToken w10Limiter w1Url 0).1 = 0 ↔
        (isAllowed w10Limiter w1Url 0).1 = true) ∧
      ((consume w10Limiter w1Url 0).1 = false →
        (consume w10Limiter w1Url 0).2 = (isAllowed w10Limiter w1Url 0).2) ∧
      bucketsInRange (consume w10Limiter w1Url 0).2 ∧
      bucketsInRange (isAllowed w10Limiter w1Url 0).2 ∧
      bucketsInRange (getTokenCount w10Limiter w1Url 0).2 ∧
      bucketsInRange (getTimeUntilNextToken w10Limiter w1Url 0).2) :=
  ⟨by norm_num [w10Limiter], by norm_num [w10Limiter],
   by intro k b h; simp [w10Limiter, alookup] at h,
   C10_limiter_operation_algebra w10Limiter w1Url 0
     (by norm_num [w10Limiter]) (by norm_num [w10Limiter])
     (by intro k b h; simp [w10Limiter, alookup] at h)⟩

/-! ## Handler branch equations, shared by the scenario proofs -/

/-- The store after one successful updateLastStatus call. -/
def updatedStore (store : Store) (r : StatusResult) : Store :=
  { statusStore := aset store.statusStore r.url r
    metricsStore :=
      updateSiteMetrics store.metricsStore r (alookup store.statusStore r.url)
    history := addToHistory store.history r }

theorem updateLastStatus_eq_ok (store : Store) (r : StatusResult)
    (h : validationError r = none) :
    updateLastStatus store r = .ok (updatedStore store r) :=
  updateLastStatus_ok store r h

theorem handler_first (sys : SystemState) (r : StatusResult) (now : ℤ)
    (hvalid : validationError r = none)
    (hnone : alookup sys.store.statusStore r.url = none) :
    handler sys r now =
      .ok ({ sys with store := updatedStore sys.store r },
        [.initialCheck r.url r.status r.responseTime]) := by
  have hurl := validationError_none_url r hvalid
  simp only [handler, if_neg hurl, hnone,
    updateLastStatus_eq_ok sys.store r hvalid]

theorem handler_routine (sys : SystemState) (r : StatusResult) (now : ℤ)
    (prev : StatusResult) (hvalid : validationError r = none)
    (hprev : alookup sys.store.statusStore r.url = some prev)
    (hsame : r.status = prev.status) :
    handler sys r now =
      .ok ({ sys with store := updatedStore sys.store r },
        [.routineUpdate r.url r.status r.responseTime r.checkedAt]) := by
  have hurl := validationError_none_url r hvalid
  simp only [handler, if_neg hurl, hprev, if_pos hsame,
    updateLastStatus_eq_ok sys.store r hvalid]

theorem handler_granted (sys : SystemState) (r : StatusResult) (now : ℤ)
    (prev : StatusResult) (hvalid : validationError r = none)
    (hprev : alookup sys.store.statusStore r.url = some prev)
    (hdiff : ¬ r.status = prev.status)
    (hgrant : (consume sys.limiter r.url now).1 = true) :
    handler sys r now =
      .ok ({ store := updatedStore sys.store r,
             limiter := (consume sys.limiter r.url now).2 },
        [.statusChange r prev.status]) := by
  have hurl := validationError_none_url r hvalid
  rcases hc : consume sys.limiter r.url now with ⟨b, rl2⟩
  rw [hc] at hgrant
  simp only at hgrant
  subst hgrant
  simp only [handler, if_neg hurl, hprev, if_neg hdiff, hc,
    updateLastStatus_eq_ok sys.store r hvalid]

theorem handler_denied (sys : SystemState) (r : StatusResult) (now : ℤ)
    (prev : StatusResult) (hurl : r.url ≠ "")
    (hprev : alookup sys.store.statusStore r.url = some prev)
    (hdiff : ¬ r.status = prev.status)
    (hdenied : (consume sys.limiter r.url now).1 = false) :
    handler sys r now =
      .ok ({ sys with
              limiter := (getTimeUntilNextToken
                (consume sys.limiter r.url now).2 r.url now).2 },
        [.rateLimited r.url prev.status r.status
          (getTimeUntilNextToken
            (consume sys.limiter r.url now).2 r.url now).1]) := by
  rcases hc : consume sys.limiter r.url now with ⟨b, rl2⟩
  rw [hc] at hdenied
  simp only at hdenied
  subst hdenied
  simp only [handler, if_neg hurl, hprev, if_neg hdiff, hc]

/-! ## Claim C3: flapping with burst 2 -/

/-- Site of the C3 flapping scenario. -/
def c3Url : String := "https://flap.example"

def c3R1 : StatusResult := mkRes c3Url "UP" 10 "t1"

def c3R2 : StatusResult := mkRes c3Url "DOWN" 20 "t2"

def c3R3 : StatusResult := mkRes c3Url "UP" 30 "t3"

def c3R4 : StatusResult := mkRes c3Url "DOWN" 40 "t4"

def c3R5 : StatusResult := mkRes c3Url "UP" 50 "t5"

def c3R6 : StatusResult := mkRes c3Url "DOWN" 60 "t6"

/-- Initial C3 state: empty stores, limiter with burst 2, window 300 s. -/
def c3S0 : SystemState :=
  { store := emptyStore
    limiter := { burst := 2, windowSec := 300, buckets := [] } }

def c3S1 : SystemState := { c3S0 with store := updatedStore c3S0.store c3R1 }

def c3S2 : SystemState :=
  { store := updatedStore c3S1.store c3R2
    limiter := (consume c3S1.limiter c3Url 0).2 }

def c3S3 : SystemState :=
  { store := updatedStore c3S2.store c3R3
    limiter := (consume c3S2.limiter c3Url 0).2 }

def c3S4 : SystemState :=
  { c3S3 with
     limiter := (getTimeUntilNextToken
       (consume c3S3.limiter c3Url 0).2 c3Url 0).2 }

def c3S5 : SystemState := { c3S4 with store := updatedStore c3S4.store c3R5 }

def c3S6 : SystemState :=
  { c3S5 with
     limiter := (getTimeUntilNextToken
       (consume c3S5.limiter c3Url 0).2 c3Url 0).2 }

/-- The six C3 submissions: UP, DOWN, UP, DOWN, UP, DOWN. -/
def c3Inputs : List StatusResult := [c3R1, c3R2, c3R3, c3R4, c3R5, c3R6]

/-- The whole C3 run, every check at the same instant, so that no refill
happens between checks. -/
def c3Run : Except String (SystemState × List Notification) :=
  runChecks c3S0 c3Inputs 0

/-- C3: with burst 2, feeding UP, DOWN, UP, DOWN, UP, DOWN at one instant
produces exactly the notification trace initial, change, change,
suppressed, routine, suppressed — exactly 2 high-priority status-change
notifications; both later transitions (checks 4 and 6) are suppressed
with the stale previous status UP, and the stored record after the run is
the routine check 5, still UP: each suppressed transition left the
pre-transition record in place. -/
theorem C3_flapping_burst2 :
    c3Run = .ok (c3S6,
      [Notification.initialCheck c3Url "UP" 10,
       Notification.statusChange c3R2 "UP",
       Notification.statusChange c3R3 "DOWN",
       Notification.rateLimited c3Url "UP" "DOWN" 150000,
       Notification.routineUpdate c3Url "UP" 50 "t5",
       Notification.rateLimited c3Url "UP" "DOWN" 150000]) ∧
    ([Notification.initialCheck c3Url "UP" 10,
      Notification.statusChange c3R2 "UP",
      Notification.statusChange c3R3 "DOWN",
      Notification.rateLimited c3Url "UP" "DOWN" 150000,
      Notification.routineUpdate c3Url "UP" 50 "t5",
      Notification.rateLimited c3Url "UP" "DOWN" 150000].countP
        Notification.isStatusChange) = 2 ∧
    alookup c3S6.store.statusStore c3Url = some c3R5 := by
  have hgrant2 : (consume c3S1.limiter c3R2.url 0).1 = true := by
    norm_num [c3S1, c3S0, c3R2, mkRes, consume, refreshBucket, storedBucket,
      refillBucket, RateLimiter.refillRate, alookup, aset]
  have hgrant3 : (consume c3S2.limiter c3R3.url 0).1 = true := by
    norm_num [c3S2, c3S1, c3S0, c3R3, mkRes, consume, refreshBucket,
      storedBucket, refillBucket, RateLimiter.refillRate, alookup, aset]
  have hden4 : (consume c3S3.limiter c3R4.url 0).1 = false := by
    norm_num [c3S3, c3S2, c3S1, c3S0, c3R4, mkRes, consume, refreshBucket,
      storedBucket, refillBucket, RateLimiter.refillRate, alookup, aset]
  have ht4 : (getTimeUntilNextToken
      (consume c3S3.limiter c3R4.url 0).2 c3R4.url 0).1 = 150000 := by
    norm_num [c3S3, c3S2, c3S1, c3S0, c3R4, mkRes, consume,
      getTimeUntilNextToken, refreshBucket, storedBucket, refillBucket,
      RateLimiter.refillRate, alookup, aset]
  have hden6 : (consume c3S5.limiter c3R6.url 0).1 = false := by
    norm_num [c3S5, c3S4, c3S3, c3S2, c3S1, c3S0, c3R6, mkRes, consume,
      getTimeUntilNextToken, refreshBucket, storedBucket, refillBucket,
      RateLimiter.refillRate, alookup, aset]
  have ht6 : (getTimeUntilNextToken
      (consume c3S5.limiter c3R6.url 0).2 c3R6.url 0).1 = 150000 := by
    norm_num [c3S5, c3S4, c3S3, c3S2, c3S1, c3S0, c3R6, mkRes, consume,
      getTimeUntilNextToken, refreshBucket, storedBucket, refillBucket,
      RateLimiter.refillRate, alookup, aset]
  have h1 : handler c3S0 c3R1 0 =
      .ok (c3S1, [.initialCheck c3Url "UP" 10]) :=
    handler_first c3S0 c3R1 0 (by decide) (by decide)
  have h2 : handler c3S1 c3R2 0 = .ok (c3S2, [.statusChange c3R2 "UP"]) :=
    handler_granted c3S1 c3R2 0 c3R1 (by decide) (by decide) (by decide)
      hgrant2
  have h3 : handler c3S2 c3R3 0 = .ok (c3S3, [.statusChange c3R3 "DOWN"]) :=
    handler_granted c3S2 c3R3 0 c3R2 (by decide) (by decide) (by decide)
      hgrant3
  have h4 : handler c3S3 c3R4 0 =
      .ok (c3S4, [.rateLimited c3Url "UP" "DOWN" 150000]) := by
    rw [handler_denied c3S3 c3R4 0 c3R3 (by decide) (by decide) (by decide)
      hden4, ht4]
    exact rfl
  have h5 : handler c3S4 c3R5 0 =
      .ok (c3S5, [.routineUpdate c3Url "UP" 50 "t5"]) :=
    handler_routine c3S4 c3R5 0 c3R3 (by decide) (by decide) (by decide)
  have h6 : handler c3S5 c3R6 0 =
      .ok (c3S6, [.rateLimited c3Url "UP" "DOWN" 150000]) := by
    rw [handler_denied c3S5 c3R6 0 c3R5 (by decide) (by decide) (by decide)
      hden6, ht6]
    exact rfl
  refine ⟨?_, by decide, by decide⟩
  simp only [c3Run, c3Inputs, runChecks, h1, h2, h3, h4, h5, h6,
    List.cons_append, List.nil_append]

/-! ## Claim C2: the round trip -/

/-- Site of the C2 counterexample scenario. -/
def c2Url : String := "https://round.example"

def c2R1 : StatusResult := mkRes c2Url "UP" 10 "s1"

def c2R2 : StatusResult := mkRes c2Url "DOWN" 20 "s2"

def c2R3 : StatusResult := mkRes c2Url "UP" 30 "s3"

def c2R4 : StatusResult := mkRes c2Url "DOWN" 40 "s4"

def c2R5 : StatusResult := mkRes c2Url "UP" 50 "s5"

/-- Initial C2 state: empty stores and the default limiter configuration
of the repository, burst 3 over a 300-second window. -/
def c2S0 : SystemState :=
  { store := emptyStore
    limiter := { burst := 3, windowSec := 300, buckets := [] } }

def c2S1 : SystemState := { c2S0 with store := updatedStore c2S0.store c2R1 }

def c2S2 : SystemState :=
  { store := updatedStore c2S1.store c2R2
    limiter := (consume c2S1.limiter c2Url 0).2 }

def c2S3 : SystemState :=
  { store := updatedStore c2S2.store c2R3
    limiter := (consume c2S2.limiter c2Url 0).2 }

def c2S4 : SystemState :=
  { store := updatedStore c2S3.store c2R4
    limiter := (consume c2S3.limiter c2Url 0).2 }

def c2S5 : SystemState :=
  { c2S4 with
     limiter := (getTimeUntilNextToken
       (consume c2S4.limiter c2Url 0).2 c2Url 0).2 }

/-- The five C2 submissions. -/
def c2Inputs : List StatusResult := [c2R1, c2R2, c2R3, c2R4, c2R5]

/-- C2 counterexample: after processing the full sequence through the
event handler with the default burst of 3, the last submitted result for
the site is the UP check c2R5, but it was rate-limited and not persisted,
so the snapshot still returns the stale DOWN check c2R4 — the round trip
fails on the processing path whenever the last transition is
suppressed. -/
theorem C2_counterexample :
    lastFor c2Url c2Inputs = some c2R5 ∧
    runChecks c2S0 c2Inputs 0 = .ok (c2S5,
      [Notification.initialCheck c2Url "UP" 10,
       Notification.statusChange c2R2 "UP",
       Notification.statusChange c2R3 "DOWN",
       Notification.statusChange c2R4 "UP",
       Notification.rateLimited c2Url "DOWN" "UP" 100000]) ∧
    alookup (getSnapshot c2S5.store) c2Url = some c2R4 ∧
    c2R4 ≠ c2R5 := by
  have hgrant2 : (consume c2S1.limiter c2R2.url 0).1 = true := by
    norm_num [c2S1, c2S0, c2R2, mkRes, consume, refreshBucket, storedBucket,
      refillBucket, RateLimiter.refillRate, alookup, aset]
  have hgrant3 : (consume c2S2.limiter c2R3.url 0).1 = true := by
    norm_num [c2S2, c2S1, c2S0, c2R3, mkRes, consume, refreshBucket,
      storedBucket, refillBucket, RateLimiter.refillRate, alookup, aset]
  have hgrant4 : (consume c2S3.limiter c2R4.url 0).1 = true := by
    norm_num [c2S3, c2S2, c2S1, c2S0, c2R4, mkRes, consume, refreshBucket,
      storedBucket, refillBucket, RateLimiter.refillRate, alookup, aset]
  have hden5 : (consume c2S4.limiter c2R5.url 0).1 = false := by
    norm_num [c2S4, c2S3, c2S2, c2S1, c2S0, c2R5, mkRes, consume,
      refreshBucket, storedBucket, refillBucket, RateLimiter.refillRate,
      alookup, aset]
  have ht5 : (getTimeUntilNextToken
      (consume c2S4.limiter c2R5.url 0).2 c2R5.url 0).1 = 100000 := by
    norm_num [c2S4, c2S3, c2S2, c2S1, c2S0, c2R5, mkRes, consume,
      getTimeUntilNextToken, refreshBucket, storedBucket, refillBucket,
      RateLimiter.refillRate, alookup, aset]
  have h1 : handler c2S0 c2R1 0 =
      .ok (c2S1, [.initialCheck c2Url "UP" 10]) :=
    handler_first c2S0 c2R1 0 (by decide) (by decide)
  have h2 : handler c2S1 c2R2 0 = .ok (c2S2, [.statusChange c2R2 "UP"]) :=
    handler_granted c2S1 c2R2 0 c2R1 (by decide) (by decide) (by decide)
      hgrant2
  have h3 : handler c2S2 c2R3 0 = .ok (c2S3, [.statusChange c2R3 "DOWN"]) :=
    handler_granted c2S2 c2R3 0 c2R2 (by decide) (by decide) (by decide)
      hgrant3
  have h4 : handler c2S3 c2R4 0 = .ok (c2S4, [.statusChange c2R4 "UP"]) :=
    handler_granted c2S3 c2R4 0 c2R3 (by decide) (by decide) (by decide)
      hgrant4
  have h5 : handler c2S4 c2R5 0 =
      .ok (c2S5, [.rateLimited c2Url "DOWN" "UP" 100000]) := by
    rw [handler_denied c2S4 c2R5 0 c2R4 (by decide) (by decide) (by decide)
      hden5, ht5]
    exact rfl
  refine ⟨by decide, ?_, by decide, by decide⟩
  simp only [c2Inputs, runChecks, h1, h2, h3, h4, h5,
    List.cons_append, List.nil_append]

/-- Whether a result sequence contains an entry for the given URL. -/
theorem lastFor_eq_none (u : String) (l : List StatusResult) :
    lastFor u l = none ↔ ∀ y ∈ l, y.url ≠ u := by
  induction l with
  | nil => simp [lastFor]
  | cons x rest ih =>
      cases h : lastFor u rest with
      | some r =>
          simp only [lastFor, h]
          constructor
          · intro hx
            exact absurd hx (by simp)
          · intro hall
            have hn : lastFor u rest = none :=
              ih.mpr (fun y hy => hall y (by simp [hy]))
            rw [h] at hn
            exact absurd hn (by simp)
      | none =>
          simp only [lastFor, h]
          by_cases hxu : x.url = u
          · simp only [if_pos hxu]
            constructor
            · intro hx
              exact absurd hx (by simp)
            · intro hall
              exact absurd hxu (hall x (by simp))
          · simp only [if_neg hxu]
            constructor
            · intro _ y hy
              rcases List.mem_cons.mp hy with h1 | h2
              · rw [h1]
                exact hxu
              · exact (ih.mp h) y h2
            · intro _
              trivial

/-- Submitting results that never touch the given URL leaves its status
record unchanged. -/
theorem submitAll_frame (u : String) (l : List StatusResult) :
    ∀ s : Store, (∀ y ∈ l, validationError y = none) →
      (∀ y ∈ l, y.url ≠ u) →
      ∃ s2, submitAll s l = .ok s2 ∧
        alookup s2.statusStore u = alookup s.statusStore u := by
  induction l with
  | nil =>
      intro s _ _
      exact ⟨s, rfl, rfl⟩
  | cons x rest ih =>
      intro s hv hu
      have hvx := hv x (by simp)
      have hsub : submitAll s (x :: rest) =
          submitAll (updatedStore s x) rest := by
        simp only [submitAll, updateLastStatus_eq_ok s x hvx]
      obtain ⟨s2, hs2, hl2⟩ := ih (updatedStore s x)
        (fun y hy => hv y (by simp [hy]))
        (fun y hy => hu y (by simp [hy]))
      refine ⟨s2, by rw [hsub]; exact hs2, ?_⟩
      rw [hl2]
      have hxu : x.url ≠ u := hu x (by simp)
      simp only [updatedStore]
      exact alookup_aset_ne _ _ _ _ (fun hh => hxu hh.symm)

/-- C2 amended: the round trip holds on the persistence-layer submission
path.  For every sequence of valid results submitted through
updateLastStatus, the snapshot maps each URL appearing in the sequence to
the last result submitted for it.  (The counterexample shows the claim as
stated fails on the full handler path when the last transition for a URL
is rate-limited, since a suppressed result is deliberately not
persisted.) -/
theorem C2_roundtrip_via_updateLastStatus (s : Store)
    (l : List StatusResult) (u : String) (r : StatusResult)
    (hvalid : ∀ x ∈ l, validationError x = none)
    (hlast : lastFor u l = some r) :
    ∃ s2, submitAll s l = .ok s2 ∧ alookup (getSnapshot s2) u = some r := by
  induction l generalizing s with
  | nil => simp [lastFor] at hlast
  | cons x rest ih =>
      have hvx : validationError x = none := hvalid x (by simp)
      have hvrest : ∀ y ∈ rest, validationError y = none :=
        fun y hy => hvalid y (by simp [hy])
      have hsub : submitAll s (x :: rest) =
          submitAll (updatedStore s x) rest := by
        simp only [submitAll, updateLastStatus_eq_ok s x hvx]
      cases hrest : lastFor u rest with
      | some r2 =>
          have hl : lastFor u (x :: rest) = some r2 := by
            simp [lastFor, hrest]
          rw [hl] at hlast
          cases hlast
          rw [hsub]
          exact ih (updatedStore s x) hvrest hrest
      | none =>
          have hl : lastFor u (x :: rest) =
              if x.url = u then some x else none := by
            simp [lastFor, hrest]
          rw [hl] at hlast
          by_cases hxu : x.url = u
          · rw [if_pos hxu] at hlast
            injection hlast with hxr
            subst hxr
            obtain ⟨s2, hs2, hlook⟩ := submitAll_frame u rest
              (updatedStore s x) hvrest ((lastFor_eq_none u rest).mp hrest)
            refine ⟨s2, by rw [hsub]; exact hs2, ?_⟩
            simp only [getSnapshot]
            rw [hlook]
            simp only [updatedStore]
            rw [← hxu]
            exact alookup_aset_self ..
          · rw [if_neg hxu] at hlast
            exact absurd hlast (by simp)

/-- Site of the C2 witness. -/
def w2Url : String := "https://w2.example"

/-- Two valid submissions for one site; the round trip must return the
second. -/
def w2R1 : StatusResult := mkRes w2Url "UP" 10 "u1"

def w2R2 : StatusResult := mkRes w2Url "DOWN" 20 "u2"

theorem C2_witness :
    (∀ x ∈ [w2R1, w2R2], validationError x = none) ∧
    lastFor w2Url [w2R1, w2R2] = some w2R2 ∧
    ∃ s2, submitAll emptyStore [w2R1, w2R2] = .ok s2 ∧
      alookup (getSnapshot s2) w2Url = some w2R2 :=
  ⟨by decide, by decide,
   C2_roundtrip_via_updateLastStatus emptyStore [w2R1, w2R2] w2Url w2R2
     (by decide) (by decide)⟩

end Uptime
